import Mathlib

/-!
# CommandForge — background process execution and streaming status subsystem

A shallow embedding, in Lean 4, of the background-execution core of the
`commandforge` Go repository, together with theorems settling the frozen
claims about its specification.

Modelling conventions:
* Go `time.Time` / `time.Duration` values are modelled as `Nat` nanosecond
  counts (`0` plays the role of the zero `time.Time`, matching `IsZero`).
  Durations reported as float seconds in Go are kept in nanoseconds here;
  the handler's `0.1`-second threshold becomes `100000000` ns.
* Goroutine effects (pipe readers, the waiter) are modelled as explicit
  state-transition functions / relations on the `BackgroundCommand` record;
  the `Done` channel is the boolean `DoneClosed` (closed exactly once).
  The `wg.Wait()` in `ExecuteCommandWithStreaming` guarantees that all
  appends happen before finalization, which is reflected by the
  `DoneClosed = false` side conditions of the step relation.
* OS-dependent outcomes (pipe creation, `cmd.Start`, `cmd.Wait`) are inputs
  of the model (`SpawnOutcome`, `WaitOutcome`).
* Registries (Go maps holding pointers) are association lists with
  overwrite-on-insert semantics; in-place mutation of a registered command
  is modelled by re-inserting the updated record under the same key.
* `fmt.Errorf` results are modelled as `Except String` errors carrying the
  same format text; RFC3339 timestamp strings of `CommandResult` are
  omitted (no claim mentions them).
-/

namespace CommandForge

/-- Go `strings.Join(lines, "\n")`. -/
def joinLines (lines : List String) : String :=
  String.intercalate "\n" lines

/-! ## Association-list model of Go maps (string keys, overwrite semantics) -/

/-- Lookup in a Go map: the value stored under `k`, if any. -/
def mapLookup {α : Type} (m : List (String × α)) (k : String) : Option α :=
  (m.find? (fun p => p.1 == k)).map (fun p => p.2)

/-- Go `delete(m, k)`. -/
def mapDelete {α : Type} (m : List (String × α)) (k : String) : List (String × α) :=
  m.filter (fun p => p.1 != k)

/-- Go `m[k] = v` (silently replaces any existing entry under `k`). -/
def mapSet {α : Type} (m : List (String × α)) (k : String) (v : α) : List (String × α) :=
  (k, v) :: mapDelete m k

theorem mapLookup_set_self {α : Type} (m : List (String × α)) (k : String) (v : α) :
    mapLookup (mapSet m k v) k = some v := by
  simp [mapLookup, mapSet, List.find?]

theorem mapLookup_delete_self {α : Type} (m : List (String × α)) (k : String) :
    mapLookup (mapDelete m k) k = none := by
  have h : List.find? (fun p => p.1 == k) (mapDelete m k) = none := by
    rw [List.find?_eq_none]
    intro x hx
    have hmem := List.of_mem_filter hx
    simpa using hmem
  simp [mapLookup, h]

/-! ## `BackgroundCommand` (src/unnamed/part_009) -/

/-- The `executor.BackgroundCommand` struct.  The `Done` channel is modelled
by `DoneClosed`; `Cmd`, `Cancel` and the mutex carry no observable state. -/
structure BackgroundCommand where
  ID : String
  Command : String
  WorkingDir : String
  StartTimeNs : Nat
  EndTimeNs : Nat
  DurationNs : Nat
  ExitCode : Int
  Output : String
  Error : String
  OutputLines : List String
  ErrorLines : List String
  DoneClosed : Bool
deriving DecidableEq, Repr

/-- `executor.NewBackgroundCommand`: builds the struct with the id
`fmt.Sprintf("cmd-%d", time.Now().UnixNano())`; it never fails. -/
def NewBackgroundCommand (command : String) (workingDir : String) (nowNs : Nat) :
    BackgroundCommand :=
  { ID := "cmd-" ++ toString nowNs
    Command := command
    WorkingDir := workingDir
    StartTimeNs := 0
    EndTimeNs := 0
    DurationNs := 0
    ExitCode := 0
    Output := ""
    Error := ""
    OutputLines := []
    ErrorLines := []
    DoneClosed := false }

/-- `BackgroundCommand.AppendOutput`. -/
def BackgroundCommand.AppendOutput (c : BackgroundCommand) (line : String) :
    BackgroundCommand :=
  { c with OutputLines := c.OutputLines ++ [line] }

/-- `BackgroundCommand.AppendError`. -/
def BackgroundCommand.AppendError (c : BackgroundCommand) (line : String) :
    BackgroundCommand :=
  { c with ErrorLines := c.ErrorLines ++ [line] }

/-- `BackgroundCommand.GetStatus`: returns
`(done?, exitCode, output, error, outputList, errorList)`.
The first component is `true` exactly when the `Done` channel is closed
(the `select` on `c.Done` succeeds); while the process is still running the
default branch returns `false`, exit code `0`, and the joined current lines. -/
def BackgroundCommand.GetStatus (c : BackgroundCommand) :
    Bool × Int × String × String × List String × List String :=
  if c.DoneClosed then
    (true, c.ExitCode, c.Output, c.Error, c.OutputLines, c.ErrorLines)
  else
    (false, 0, joinLines c.OutputLines, joinLines c.ErrorLines,
      c.OutputLines, c.ErrorLines)

/-- Outcome of Go `cmd.Wait()`. -/
inductive WaitOutcome where
  /-- `Wait` returned `nil`: clean exit, status 0. -/
  | clean : WaitOutcome
  /-- `Wait` returned an `*exec.ExitError` with `ExitCode() = code`
  (nonzero status, or `-1` when the process was signaled). -/
  | exitErr (code : Int) : WaitOutcome
  /-- `Wait` returned some other (non-`ExitError`) error. -/
  | otherErr : WaitOutcome
deriving DecidableEq, Repr

/-- Exit code computed by the background waiter goroutine
(src/unnamed/part_009, lines 196–205): `ExitError` → its code,
any other error → `1`, `nil` → `0`. -/
def bgWaitExitCode : WaitOutcome → Int
  | .clean => 0
  | .exitErr code => code
  | .otherErr => 1

/-- The waiter goroutine of `ExecuteCommandWithStreaming` after `wg.Wait()`
and `cmd.Wait()`: appends the lines the two readers drained, sets
`EndTime`/`Duration`/`ExitCode`, joins the line buffers into the final
`Output`/`Error` strings and closes `Done`. -/
def finishBackground (c : BackgroundCommand) (outLines errLines : List String)
    (w : WaitOutcome) (endNs : Nat) : BackgroundCommand :=
  { c with
    OutputLines := c.OutputLines ++ outLines
    ErrorLines := c.ErrorLines ++ errLines
    EndTimeNs := endNs
    DurationNs := endNs - c.StartTimeNs
    ExitCode := bgWaitExitCode w
    Output := joinLines (c.OutputLines ++ outLines)
    Error := joinLines (c.ErrorLines ++ errLines)
    DoneClosed := true }

/-- One observable step in a background command's lifecycle: a reader
appends a line, or the waiter finalizes.  The `DoneClosed = false` side
conditions reflect that `wg.Wait()` forces every append to happen before
the waiter finalizes and closes `Done`. -/
inductive BgStep : BackgroundCommand → BackgroundCommand → Prop where
  | appendOutput (c : BackgroundCommand) (line : String)
      (h : c.DoneClosed = false) : BgStep c (c.AppendOutput line)
  | appendError (c : BackgroundCommand) (line : String)
      (h : c.DoneClosed = false) : BgStep c (c.AppendError line)
  | finish (c : BackgroundCommand) (w : WaitOutcome) (endNs : Nat)
      (h : c.DoneClosed = false) : BgStep c (finishBackground c [] [] w endNs)

/-! ## Command registry (src/pkg/executor/registry.go) -/

/-- The registry map `commandRegistry.commands`, passed explicitly. -/
abbrev Registry := List (String × BackgroundCommand)

/-- `executor.RegisterCommand`: `commandRegistry.commands[cmd.ID] = cmd`. -/
def RegisterCommand (reg : Registry) (cmd : BackgroundCommand) : Registry :=
  mapSet reg cmd.ID cmd

/-- `executor.GetCommand`: lookup, `fmt.Errorf("command not found: %s", id)`
when absent. -/
def GetCommand (reg : Registry) (id : String) : Except String BackgroundCommand :=
  match mapLookup reg id with
  | none => .error ("command not found: " ++ id)
  | some cmd => .ok cmd

/-- `executor.ListCommands`: the keys of the registry map. -/
def ListCommands (reg : Registry) : List String :=
  reg.map (fun p => p.1)

/-- `executor.RemoveCommand`: `delete(commandRegistry.commands, id)`. -/
def RemoveCommand (reg : Registry) (id : String) : Registry :=
  mapDelete reg id

/-! ## Spawning (pipe creation and `cmd.Start`) -/

/-- Outcome of the spawn phase: `StdoutPipe()`, `StderrPipe()`, `Start()`. -/
inductive SpawnOutcome where
  /-- `cmd.StdoutPipe()` failed with this message. -/
  | stdoutPipeFail (msg : String) : SpawnOutcome
  /-- `cmd.StderrPipe()` failed with this message. -/
  | stderrPipeFail (msg : String) : SpawnOutcome
  /-- `cmd.Start()` failed with this message (missing shell, permission
  denied, invalid working directory, …). -/
  | startFail (msg : String) : SpawnOutcome
  /-- The OS process was spawned successfully. -/
  | started : SpawnOutcome
deriving DecidableEq, Repr

/-- `BackgroundCommand.Start` (src/unnamed/part_009, lines 50–111):
creates the pipes and starts the process; on success the command records
its start time, the readers and the waiter begin running. -/
def BackgroundCommand.Start (c : BackgroundCommand) (nowNs : Nat)
    (spawn : SpawnOutcome) : Except String BackgroundCommand :=
  match spawn with
  | .stdoutPipeFail msg => .error ("failed to create stdout pipe: " ++ msg)
  | .stderrPipeFail msg => .error ("failed to create stderr pipe: " ++ msg)
  | .startFail msg => .error ("failed to start command: " ++ msg)
  | .started => .ok { c with StartTimeNs := nowNs }

/-- `executor.ExecuteCommandWithStreaming` (src/unnamed/part_009,
lines 114–218), up to the point where it returns: on any pipe or start
failure it returns the error and touches nothing; on success it registers
the freshly created command in the global registry and returns it.
The registry is threaded explicitly. -/
def ExecuteCommandWithStreaming (reg : Registry) (command workingDir : String)
    (nowNs : Nat) (spawn : SpawnOutcome) :
    Registry × Except String BackgroundCommand :=
  match spawn with
  | .stdoutPipeFail msg => (reg, .error ("failed to create stdout pipe: " ++ msg))
  | .stderrPipeFail msg => (reg, .error ("failed to create stderr pipe: " ++ msg))
  | .startFail msg => (reg, .error ("failed to start command: " ++ msg))
  | .started =>
    let bgCmd : BackgroundCommand :=
      { ID := "cmd-" ++ toString nowNs
        Command := command
        WorkingDir := workingDir
        StartTimeNs := nowNs
        EndTimeNs := 0
        DurationNs := 0
        ExitCode := 0
        Output := ""
        Error := ""
        OutputLines := []
        ErrorLines := []
        DoneClosed := false }
    (RegisterCommand reg bgCmd, .ok bgCmd)

/-! ## Status snapshots and the execution pipeline (src/pkg/flow/execution.go) -/

/-- `executor.BackgroundCommandStatus` (the snapshot record handed to
observers; `Duration` kept in nanoseconds). -/
structure BackgroundCommandStatus where
  ID : String
  Command : String
  WorkingDir : String
  Running : Bool
  ExitCode : Int
  Output : String
  Error : String
  OutputList : List String
  ErrorList : List String
  DurationNs : Nat
deriving DecidableEq, Repr, Inhabited

/-- `flow.ExecutionResult`. -/
structure ExecutionResult where
  Success : Bool
  ExitCode : Int
  Output : String
  Error : String
  DurationNs : Nat
  OutputList : List String
  ErrorList : List String
deriving DecidableEq, Repr, Inhabited

/-- The result `StreamingExecutor.ExecuteCommand` and
`StreamingExecutor.GetCommandStatus` assemble from a background command:
`Success` is literally `cmd.ExitCode == 0`. -/
def resultOfBackground (cmd : BackgroundCommand) : ExecutionResult :=
  { Success := decide (cmd.ExitCode = 0)
    ExitCode := cmd.ExitCode
    Output := cmd.Output
    Error := cmd.Error
    DurationNs := cmd.DurationNs
    OutputList := cmd.OutputLines
    ErrorList := cmd.ErrorLines }

/-- `flow.StreamingExecutor` (its `ActiveCommands` map; the mutex carries
no observable state). -/
structure StreamingExecutor where
  ActiveCommands : List (String × BackgroundCommand)
deriving DecidableEq, Repr

/-- `flow.StreamingExecutor.ExecuteCommand` (src/pkg/flow/execution.go,
lines 38–85), run to completion.  Inputs: the executor and global registry
states, the command, the two `time.Now().UnixNano()` stamps (one for the
executor's own `commandID`, one taken inside `ExecuteCommandWithStreaming`
for the background command's id), the spawn outcome, and — for the
successful path — the lines drained by the readers, the wait outcome and
the end time.  On spawn failure it swallows the error into a
`Success=false, ExitCode=-1` result and returns a nil error (modelled by
returning the result directly).  On success it stores the command under
`commandID`, waits for completion (the command finishes in place, which
also updates the registry's view of it), deletes the `ActiveCommands`
entry again, and assembles the result. -/
def StreamingExecutor.ExecuteCommand (e : StreamingExecutor) (reg : Registry)
    (command workingDir : String) (idNowNs bgNowNs : Nat) (spawn : SpawnOutcome)
    (outLines errLines : List String) (w : WaitOutcome) (endNs : Nat) :
    StreamingExecutor × Registry × ExecutionResult :=
  let commandID := "cmd-" ++ toString idNowNs
  match ExecuteCommandWithStreaming reg command workingDir bgNowNs spawn with
  | (reg1, .error msg) =>
    (e, reg1,
      { Success := false
        ExitCode := -1
        Output := ""
        Error := "Failed to execute command: " ++ msg
        DurationNs := 0
        OutputList := []
        ErrorList := [] })
  | (reg1, .ok bgCmd) =>
    let e1 : StreamingExecutor :=
      { ActiveCommands := mapSet e.ActiveCommands commandID bgCmd }
    let doneCmd := finishBackground bgCmd outLines errLines w endNs
    let reg2 := mapSet reg1 doneCmd.ID doneCmd
    let e2 : StreamingExecutor :=
      { ActiveCommands := mapDelete e1.ActiveCommands commandID }
    (e2, reg2, resultOfBackground doneCmd)

/-- `flow.StreamingExecutor.GetCommandStatus` (lines 88–110). -/
def StreamingExecutor.GetCommandStatus (e : StreamingExecutor)
    (commandID : String) : Except String ExecutionResult :=
  match mapLookup e.ActiveCommands commandID with
  | none => .error ("command not found: " ++ commandID)
  | some cmd => .ok (resultOfBackground cmd)

/-- `flow.ExecutionPipeline`.  `StatusListeners` (a list of bare Go
function values) is omitted: no claim depends on it and functions carry no
decidable state. -/
structure ExecutionPipeline where
  Executor : StreamingExecutor
  WorkingDir : String
  BackgroundCommands : List (String × BackgroundCommand)
deriving DecidableEq, Repr

/-- `flow.NewExecutionPipeline`. -/
def NewExecutionPipeline (workingDir : String) : ExecutionPipeline :=
  { Executor := { ActiveCommands := [] }
    WorkingDir := workingDir
    BackgroundCommands := [] }

/-- `flow.ExecutionPipeline.ExecuteCommandInBackground` (lines 182–201):
creates a background command, starts it, and stores it under its id;
on a start failure it returns the wrapped error and stores nothing. -/
def ExecutionPipeline.ExecuteCommandInBackground (p : ExecutionPipeline)
    (command : String) (nowNs : Nat) (spawn : SpawnOutcome) :
    ExecutionPipeline × Except String String :=
  let cmd0 := NewBackgroundCommand command p.WorkingDir nowNs
  match cmd0.Start nowNs spawn with
  | .error msg => (p, .error ("failed to start background command: " ++ msg))
  | .ok cmd =>
    ({ p with BackgroundCommands := mapSet p.BackgroundCommands cmd.ID cmd },
      .ok cmd.ID)

/-- `flow.ExecutionPipeline.GetCommandStatus` (lines 204–240): looks the
command up, takes a `GetStatus` snapshot — whose first component it binds
to the variable `running` — and assembles the status record. -/
def ExecutionPipeline.GetCommandStatus (p : ExecutionPipeline)
    (commandID : String) (nowNs : Nat) :
    Except String BackgroundCommandStatus :=
  match mapLookup p.BackgroundCommands commandID with
  | none => .error ("command with ID " ++ commandID ++ " not found")
  | some cmd =>
    let (running, exitCode, output, errOutput, outputList, errorList) :=
      cmd.GetStatus
    let duration : Nat :=
      if cmd.StartTimeNs = 0 then 0
      else if cmd.EndTimeNs = 0 then nowNs - cmd.StartTimeNs
      else cmd.EndTimeNs - cmd.StartTimeNs
    .ok
      { ID := cmd.ID
        Command := cmd.Command
        WorkingDir := cmd.WorkingDir
        Running := running
        ExitCode := exitCode
        Output := output
        Error := errOutput
        OutputList := outputList
        ErrorList := errorList
        DurationNs := duration }

/-! ## Synchronous command executor (src/pkg/executor/command.go) -/

/-- `executor.CommandResult` (the RFC3339 `StartTime`/`EndTime` strings are
omitted; no claim mentions them). -/
structure CommandResult where
  Success : Bool
  ExitCode : Int
  Output : String
  Error : String
  DurationNs : Nat
  OutputList : List String
  ErrorList : List String
deriving DecidableEq, Repr, Inhabited

/-- `executor.Command`. -/
structure Command where
  Cmd : String
  Args : List String
  Dir : String
  Env : List String
  TimeoutNs : Nat
  Streaming : Bool
  outputList : List String
  errorList : List String
deriving DecidableEq, Repr

/-- `executor.NewCommand`: note the implicit `Timeout: 60 * time.Second`. -/
def NewCommand (cmd : String) (args : List String) (dir : String) : Command :=
  { Cmd := cmd
    Args := args
    Dir := dir
    Env := []
    TimeoutNs := 60 * 1000000000
    Streaming := false
    outputList := []
    errorList := [] }

/-- `executor.NewShellCommand`: `sh -c cmdStr`, same implicit 60 s timeout. -/
def NewShellCommand (cmdStr : String) (dir : String) : Command :=
  { Cmd := "sh"
    Args := ["-c", cmdStr]
    Dir := dir
    Env := []
    TimeoutNs := 60 * 1000000000
    Streaming := false
    outputList := []
    errorList := [] }

/-- `Command.WithTimeout`. -/
def Command.WithTimeout (c : Command) (timeoutNs : Nat) : Command :=
  { c with TimeoutNs := timeoutNs }

/-- `Command.WithStreaming`. -/
def Command.WithStreaming (c : Command) : Command :=
  { c with Streaming := true }

deriving instance DecidableEq for Except

/-- The OS-dependent inputs of one `Command.Execute` run: the pipe/start
outcomes, the `cmd.Wait()` outcome, the raw buffer contents (non-streaming
mode), the scanned lines (streaming mode) and the elapsed wall time from
start to the return of `Wait`. -/
structure RunBehavior where
  stdoutPipe : Except String Unit
  stderrPipe : Except String Unit
  start : Except String Unit
  wait : WaitOutcome
  stdoutText : String
  stderrText : String
  stdoutLines : List String
  stderrLines : List String
  elapsedNs : Nat
deriving DecidableEq, Repr

/-- `Command.Execute` (src/pkg/executor/command.go, lines 117–228).
Streaming mode creates the two pipes (either failure returns immediately);
then `Start` (failure returns immediately); the readers fill the line
buffers and write `line + "\n"` into the byte buffers; after `Wait` the
result is assembled with `Success := (err == nil)` and `ExitCode` set only
from an `*exec.ExitError` (it stays `0` on any other `Wait` error); finally
a context deadline that has expired (`elapsed ≥ timeout`) turns the whole
call into a timeout error, with no result. -/
def Command.Execute (c : Command) (env : RunBehavior) :
    Except String CommandResult :=
  match (if c.Streaming then env.stdoutPipe else .ok ()) with
  | .error msg => .error ("failed to create stdout pipe: " ++ msg)
  | .ok _ =>
  match (if c.Streaming then env.stderrPipe else .ok ()) with
  | .error msg => .error ("failed to create stderr pipe: " ++ msg)
  | .ok _ =>
  match env.start with
  | .error msg => .error ("failed to start command: " ++ msg)
  | .ok _ =>
    let stdoutBuf : String :=
      if c.Streaming then String.join (env.stdoutLines.map (fun l => l ++ "\n"))
      else env.stdoutText
    let stderrBuf : String :=
      if c.Streaming then String.join (env.stderrLines.map (fun l => l ++ "\n"))
      else env.stderrText
    let result : CommandResult :=
      { Success := decide (env.wait = .clean)
        ExitCode := match env.wait with
          | .exitErr code => code
          | _ => 0
        Output := stdoutBuf.trim
        Error := stderrBuf.trim
        DurationNs := env.elapsedNs
        OutputList := if c.Streaming then c.outputList ++ env.stdoutLines else []
        ErrorList := if c.Streaming then c.errorList ++ env.stderrLines else [] }
    if c.TimeoutNs ≤ env.elapsedNs then
      .error ("command timed out after " ++ toString (c.TimeoutNs / 1000000000)
        ++ " seconds")
    else
      .ok result

/-! ## Status streaming protocol (src/pkg/config/config.go, streamCommandHandler) -/

/-- `config.CommandStatusResponse`, the wire message. -/
structure CommandStatusResponse where
  Running : Bool
  ExitCode : Int
  Output : String
  Error : String
  OutputList : List String
  ErrorList : List String
  DurationNs : Nat
  Incremental : Bool
  Complete : Bool
deriving DecidableEq, Repr

/-- `config.statusChanged` (lines 521–549); the `0.1` s duration threshold
is `100000000` ns. -/
def statusChanged (old new : BackgroundCommandStatus) : Bool :=
  if old.Running != new.Running then true
  else if old.ExitCode != new.ExitCode then true
  else if old.OutputList.length != new.OutputList.length
      || old.ErrorList.length != new.ErrorList.length then true
  else if old.Output != new.Output || old.Error != new.Error then true
  else if old.DurationNs + 100000000 < new.DurationNs then true
  else false

/-- The per-observer cursor state of one streaming subscription. -/
structure StreamState where
  lastStatus : Option BackgroundCommandStatus
  processedOutputLines : Nat
  processedErrorLines : Nat
deriving DecidableEq, Repr

/-- Initial subscription state (`lastStatus = nil`, both cursors 0). -/
def initStreamState : StreamState :=
  { lastStatus := none, processedOutputLines := 0, processedErrorLines := 0 }

/-- `newOutputList` of one tick: the slice `status.OutputList[processed:]`
when there are new lines, else the empty list. -/
def tickNewOutput (st : StreamState) (status : BackgroundCommandStatus) :
    List String :=
  if st.processedOutputLines < status.OutputList.length
  then status.OutputList.drop st.processedOutputLines else []

/-- The output cursor after one tick. -/
def tickCursorOut (st : StreamState) (status : BackgroundCommandStatus) : Nat :=
  if st.processedOutputLines < status.OutputList.length
  then status.OutputList.length else st.processedOutputLines

/-- `newErrorList` of one tick. -/
def tickNewError (st : StreamState) (status : BackgroundCommandStatus) :
    List String :=
  if st.processedErrorLines < status.ErrorList.length
  then status.ErrorList.drop st.processedErrorLines else []

/-- The error cursor after one tick. -/
def tickCursorErr (st : StreamState) (status : BackgroundCommandStatus) : Nat :=
  if st.processedErrorLines < status.ErrorList.length
  then status.ErrorList.length else st.processedErrorLines

/-- The handler's send condition:
`hasNewOutput || lastStatus == nil || statusChanged(lastStatus, status)`,
where `hasNewOutput` also fires on a running-flag or exit-code change once
a previous status exists. -/
def tickSendUpdate (st : StreamState) (status : BackgroundCommandStatus) : Bool :=
  let hasNewOutput0 : Bool :=
    st.lastStatus.isNone
      || decide (st.processedOutputLines < status.OutputList.length)
      || decide (st.processedErrorLines < status.ErrorList.length)
  let hasNewOutput : Bool :=
    match st.lastStatus with
    | none => hasNewOutput0
    | some last =>
      hasNewOutput0 || (status.Running != last.Running)
        || (status.ExitCode != last.ExitCode)
  hasNewOutput || st.lastStatus.isNone ||
    (match st.lastStatus with
     | none => false
     | some last => statusChanged last status)

/-- The incremental message of one tick (only the new lines). -/
def incrementalMsg (status : BackgroundCommandStatus)
    (newOut newErr : List String) : CommandStatusResponse :=
  { Running := status.Running
    ExitCode := status.ExitCode
    Output := status.Output
    Error := status.Error
    OutputList := newOut
    ErrorList := newErr
    DurationNs := status.DurationNs
    Incremental := true
    Complete := false }

/-- The final message (`Incremental: false, Complete: true`, full lists). -/
def completeMsg (status : BackgroundCommandStatus) : CommandStatusResponse :=
  { Running := status.Running
    ExitCode := status.ExitCode
    Output := status.Output
    Error := status.Error
    OutputList := status.OutputList
    ErrorList := status.ErrorList
    DurationNs := status.DurationNs
    Incremental := false
    Complete := true }

/-- One iteration of the `streamCommandHandler` polling loop
(src/pkg/config/config.go, lines 403–489) on a successfully fetched
snapshot: returns the next subscription state, the messages written to the
WebSocket during this tick (transport writes are assumed to succeed; a
write failure would only terminate the subscription earlier), and whether
the handler closed the connection. -/
def streamTick (st : StreamState) (status : BackgroundCommandStatus) :
    StreamState × List CommandStatusResponse × Bool :=
  if tickSendUpdate st status then
    if !status.Running && (tickNewOutput st status).isEmpty
        && (tickNewError st status).isEmpty then
      (⟨some status, tickCursorOut st status, tickCursorErr st status⟩,
        [incrementalMsg status (tickNewOutput st status) (tickNewError st status),
          completeMsg status],
        true)
    else
      (⟨some status, tickCursorOut st status, tickCursorErr st status⟩,
        [incrementalMsg status (tickNewOutput st status) (tickNewError st status)],
        false)
  else
    (⟨st.lastStatus, tickCursorOut st status, tickCursorErr st status⟩, [], false)

/-- The polling loop run over a finite sequence of fetched snapshots
(one per tick), stopping as soon as the handler closes the connection. -/
def streamRun (st : StreamState) :
    List BackgroundCommandStatus →
    StreamState × List CommandStatusResponse × Bool
  | [] => (st, [], false)
  | status :: rest =>
    match streamTick st status with
    | (st1, msgs, true) => (st1, msgs, true)
    | (st1, msgs, false) =>
      let (st2, msgs2, closed) := streamRun st1 rest
      (st2, msgs ++ msgs2, closed)

/-! ## Concrete fixtures used by witnesses and counterexamples -/

/-- A background command `sleep 2 && echo done`, started at t = 100 ns,
that has produced one output line `"a"` and whose process has not yet
exited (`Done` not closed). -/
def exRunningCmd : BackgroundCommand :=
  { NewBackgroundCommand "sleep 2 && echo done" "" 100 with
    StartTimeNs := 100
    OutputLines := ["a"] }

/-- A pipeline whose `BackgroundCommands` map holds the running command. -/
def exRunningPipeline : ExecutionPipeline :=
  { NewExecutionPipeline "" with
    BackgroundCommands := [(exRunningCmd.ID, exRunningCmd)] }

/-- The same command after its waiter fired: one further line `"b"`, clean
exit, finalized output, `Done` closed. -/
def exFinishedCmd : BackgroundCommand :=
  finishBackground exRunningCmd ["b"] [] .clean 2100000100

/-- A pipeline holding the finished command. -/
def exFinishedPipeline : ExecutionPipeline :=
  { NewExecutionPipeline "" with
    BackgroundCommands := [(exFinishedCmd.ID, exFinishedCmd)] }

/-- The snapshot the pipeline hands a poller of the running command at
t = 0.5 s after start (i.e. before the process exits). -/
def exStatusT1 : BackgroundCommandStatus :=
  ((exRunningPipeline.GetCommandStatus "cmd-100" 1000000100).toOption).getD default

/-- The same poll one tick (1 s) later, the process still running and no
new lines having appeared. -/
def exStatusT2 : BackgroundCommandStatus :=
  ((exRunningPipeline.GetCommandStatus "cmd-100" 2000000100).toOption).getD default

/-- A snapshot of the finished command (taken at t = 3 s). -/
def exStatusDone : BackgroundCommandStatus :=
  ((exFinishedPipeline.GetCommandStatus "cmd-100" 3000000100).toOption).getD default

/-! ## Claims -/

/-- Claim C4: for every command whose OS process fails to spawn (pipe
creation failure, missing shell, permission denied, invalid working
directory), the start operation — `ExecuteCommandWithStreaming`, the
pipeline's `ExecuteCommandInBackground`, and the `StreamingExecutor` run —
returns/propagates a system-level error, and no command is registered: the
global registry, the pipeline's command map and the executor's
`ActiveCommands` map are left unchanged. -/
theorem c4_spawn_failure_no_registration
    (reg : Registry) (p : ExecutionPipeline) (e : StreamingExecutor)
    (command workingDir : String) (t1 t2 : Nat) (spawn : SpawnOutcome)
    (outLines errLines : List String) (w : WaitOutcome) (endNs : Nat)
    (h : spawn ≠ .started) :
    ((ExecuteCommandWithStreaming reg command workingDir t2 spawn).1 = reg
      ∧ ∃ msg, (ExecuteCommandWithStreaming reg command workingDir t2 spawn).2
          = .error msg)
    ∧ ((p.ExecuteCommandInBackground command t2 spawn).1 = p
      ∧ ∃ msg, (p.ExecuteCommandInBackground command t2 spawn).2 = .error msg)
    ∧ ((e.ExecuteCommand reg command workingDir t1 t2 spawn
          outLines errLines w endNs).1 = e
      ∧ (e.ExecuteCommand reg command workingDir t1 t2 spawn
          outLines errLines w endNs).2.1 = reg) := by
  cases spawn <;>
    simp_all [ExecuteCommandWithStreaming,
      ExecutionPipeline.ExecuteCommandInBackground, BackgroundCommand.Start,
      StreamingExecutor.ExecuteCommand, NewBackgroundCommand]

/-- Witness for C4 at a concrete failed spawn. -/
theorem c4_spawn_failure_no_registration_witness :
    (SpawnOutcome.startFail "exec: sh: not found" ≠ SpawnOutcome.started)
    ∧ (((ExecuteCommandWithStreaming [] "echo hi" "" 7
          (.startFail "exec: sh: not found")).1 = []
      ∧ ∃ msg, (ExecuteCommandWithStreaming [] "echo hi" "" 7
          (.startFail "exec: sh: not found")).2 = .error msg)
    ∧ (((NewExecutionPipeline "").ExecuteCommandInBackground "echo hi" 7
          (.startFail "exec: sh: not found")).1 = NewExecutionPipeline ""
      ∧ ∃ msg, ((NewExecutionPipeline "").ExecuteCommandInBackground "echo hi" 7
          (.startFail "exec: sh: not found")).2 = .error msg)
    ∧ ((StreamingExecutor.ExecuteCommand ⟨[]⟩ [] "echo hi" "" 3 7
          (.startFail "exec: sh: not found") [] [] .clean 9).1 = ⟨[]⟩
      ∧ (StreamingExecutor.ExecuteCommand ⟨[]⟩ [] "echo hi" "" 3 7
          (.startFail "exec: sh: not found") [] [] .clean 9).2.1 = [])) :=
  ⟨by decide,
    c4_spawn_failure_no_registration [] (NewExecutionPipeline "") ⟨[]⟩
      "echo hi" "" 3 7 (.startFail "exec: sh: not found") [] [] .clean 9
      (by decide)⟩

/-- Two background commands created in the same nanosecond: they differ as
commands but carry the same id, and registering the second silently
replaces the first — refuting claim C8 as stated. -/
theorem c8_unique_ids_counterexample :
    (NewBackgroundCommand "echo a" "" 5).ID = (NewBackgroundCommand "echo b" "" 5).ID
    ∧ NewBackgroundCommand "echo a" "" 5 ≠ NewBackgroundCommand "echo b" "" 5
    ∧ GetCommand
        (RegisterCommand (RegisterCommand [] (NewBackgroundCommand "echo a" "" 5))
          (NewBackgroundCommand "echo b" "" 5))
        (NewBackgroundCommand "echo a" "" 5).ID
      = .ok (NewBackgroundCommand "echo b" "" 5) := by
  refine ⟨rfl, by decide, rfl⟩

/-- Claim C8 (amended): command ids are derived solely from the creation
timestamp (`"cmd-" + UnixNano`), so two commands created in the same
nanosecond receive the same id, and `RegisterCommand` silently replaces
whatever entry already lives under that id. -/
theorem c8_amended_timestamp_ids :
    (∀ (cmd1 wd1 cmd2 wd2 : String) (t : Nat),
      (NewBackgroundCommand cmd1 wd1 t).ID = (NewBackgroundCommand cmd2 wd2 t).ID)
    ∧ (∀ (reg : Registry) (c1 c2 : BackgroundCommand), c1.ID = c2.ID →
      GetCommand (RegisterCommand (RegisterCommand reg c1) c2) c1.ID = .ok c2) := by
  constructor
  · intro cmd1 wd1 cmd2 wd2 t
    rfl
  · intro reg c1 c2 h
    rw [h]
    simp [GetCommand, RegisterCommand, mapLookup_set_self]

/-- Witness for the amended C8. -/
theorem c8_amended_timestamp_ids_witness :
    ((NewBackgroundCommand "echo a" "" 5).ID = (NewBackgroundCommand "echo b" "" 5).ID)
    ∧ GetCommand
        (RegisterCommand (RegisterCommand [] (NewBackgroundCommand "echo a" "" 5))
          (NewBackgroundCommand "echo b" "" 5))
        (NewBackgroundCommand "echo a" "" 5).ID
      = .ok (NewBackgroundCommand "echo b" "" 5) :=
  ⟨c8_amended_timestamp_ids.1 "echo a" "" "echo b" "" 5,
    c8_amended_timestamp_ids.2 [] (NewBackgroundCommand "echo a" "" 5)
      (NewBackgroundCommand "echo b" "" 5) rfl⟩

/-- Claim C9: for every id absent from the respective directory (never
registered or already removed), lookups fail with the NotFound error and
produce no status object: `executor.GetCommand`, the pipeline's
`GetCommandStatus`, and the streaming executor's `GetCommandStatus`; and
a just-removed id is always absent. -/
theorem c9_unknown_id_not_found
    (reg : Registry) (p : ExecutionPipeline) (e : StreamingExecutor)
    (id : String) (nowNs : Nat)
    (h1 : mapLookup reg id = none)
    (h2 : mapLookup p.BackgroundCommands id = none)
    (h3 : mapLookup e.ActiveCommands id = none) :
    GetCommand reg id = .error ("command not found: " ++ id)
    ∧ p.GetCommandStatus id nowNs
        = .error ("command with ID " ++ id ++ " not found")
    ∧ e.GetCommandStatus id = .error ("command not found: " ++ id)
    ∧ (∀ reg2 : Registry, GetCommand (RemoveCommand reg2 id) id
        = .error ("command not found: " ++ id)) := by
  refine ⟨?_, ?_, ?_, ?_⟩
  · simp [GetCommand, h1]
  · simp [ExecutionPipeline.GetCommandStatus, h2]
  · simp [StreamingExecutor.GetCommandStatus, h3]
  · intro reg2
    simp [GetCommand, RemoveCommand, mapLookup_delete_self]

/-- Witness for C9 at the unknown id `"unknown-id"` on empty directories. -/
theorem c9_unknown_id_not_found_witness :
    (mapLookup ([] : Registry) "unknown-id" = none)
    ∧ (GetCommand [] "unknown-id" = .error "command not found: unknown-id"
      ∧ (NewExecutionPipeline "").GetCommandStatus "unknown-id" 3
          = .error "command with ID unknown-id not found"
      ∧ StreamingExecutor.GetCommandStatus ⟨[]⟩ "unknown-id"
          = .error "command not found: unknown-id"
      ∧ (∀ reg2 : Registry, GetCommand (RemoveCommand reg2 "unknown-id") "unknown-id"
          = .error "command not found: unknown-id")) :=
  ⟨rfl, c9_unknown_id_not_found [] (NewExecutionPipeline "") ⟨[]⟩
    "unknown-id" 3 rfl rfl rfl⟩

/-- Claim C10: `NewCommand` and `NewShellCommand` silently install a 60 s
timeout, and `Execute` on such a command whose process runs for at least
60 s returns a system-level timeout error and no result. -/
theorem c10_default_timeout :
    (∀ (cmd : String) (args : List String) (dir : String),
      (NewCommand cmd args dir).TimeoutNs = 60 * 1000000000)
    ∧ (∀ (cmdStr dir : String),
      (NewShellCommand cmdStr dir).TimeoutNs = 60 * 1000000000)
    ∧ (∀ (cmd : String) (args : List String) (dir : String) (env : RunBehavior),
      env.start = .ok () → 60 * 1000000000 ≤ env.elapsedNs →
      (NewCommand cmd args dir).Execute env
        = .error "command timed out after 60 seconds")
    ∧ (∀ (cmdStr dir : String) (env : RunBehavior),
      env.start = .ok () → 60 * 1000000000 ≤ env.elapsedNs →
      (NewShellCommand cmdStr dir).Execute env
        = .error "command timed out after 60 seconds") := by
  refine ⟨fun _ _ _ => rfl, fun _ _ => rfl, ?_, ?_⟩
  · intro cmd args dir env hstart helapsed
    rw [Command.Execute]
    simp only [NewCommand, Bool.false_eq_true, if_false, hstart]
    rw [if_pos helapsed]
    rfl
  · intro cmdStr dir env hstart helapsed
    rw [Command.Execute]
    simp only [NewShellCommand, Bool.false_eq_true, if_false, hstart]
    rw [if_pos helapsed]
    rfl

/-- Witness for C10: a process that would run 61 s under the implicit
default timeout. -/
theorem c10_default_timeout_witness :
    ((NewShellCommand "sleep 61" "").TimeoutNs = 60 * 1000000000)
    ∧ (({ stdoutPipe := .ok (), stderrPipe := .ok (), start := .ok ()
          wait := .clean, stdoutText := "", stderrText := ""
          stdoutLines := [], stderrLines := []
          elapsedNs := 61000000000 } : RunBehavior).start = .ok ())
    ∧ (60 * 1000000000 ≤ (61000000000 : Nat))
    ∧ (NewShellCommand "sleep 61" "").Execute
        { stdoutPipe := .ok (), stderrPipe := .ok (), start := .ok ()
          wait := .clean, stdoutText := "", stderrText := ""
          stdoutLines := [], stderrLines := [], elapsedNs := 61000000000 }
      = .error "command timed out after 60 seconds" :=
  ⟨c10_default_timeout.1 "sh" ["-c", "sleep 61"] "", rfl, by decide,
    c10_default_timeout.2.2.2 "sleep 61" ""
      { stdoutPipe := .ok (), stderrPipe := .ok (), start := .ok ()
        wait := .clean, stdoutText := "", stderrText := ""
        stdoutLines := [], stderrLines := [], elapsedNs := 61000000000 }
      rfl (by decide)⟩

/-- Claim C1 (divergence): for every registered background command, the
pipeline's `GetCommandStatus` sets the `Running` field to the *first
return value of* `BackgroundCommand.GetStatus` — which is `true` exactly
when the `Done` channel has already been closed.  Snapshots therefore
report `Running = false` while the process is still running and
`Running = true` (with the final exit code and output) after it exits,
the exact opposite of the claim. -/
theorem c1_running_flag_inverted (p : ExecutionPipeline) (id : String)
    (cmd : BackgroundCommand) (nowNs : Nat)
    (h : mapLookup p.BackgroundCommands id = some cmd) :
    (p.GetCommandStatus id nowNs).map BackgroundCommandStatus.Running
        = .ok cmd.DoneClosed
    ∧ (cmd.DoneClosed = true →
        (p.GetCommandStatus id nowNs).map
            (fun s => (s.ExitCode, s.Output, s.Error))
          = .ok (cmd.ExitCode, cmd.Output, cmd.Error)) := by
  cases hd : cmd.DoneClosed <;>
    simp [ExecutionPipeline.GetCommandStatus, h, BackgroundCommand.GetStatus,
      hd, Except.map]

/-- Witness for C1: the pipeline snapshot of the not-yet-exited command
reports `Running = false`, and that of the finished command reports
`Running = true`. -/
theorem c1_running_flag_inverted_witness :
    ((mapLookup exRunningPipeline.BackgroundCommands "cmd-100" = some exRunningCmd)
      ∧ ((exRunningPipeline.GetCommandStatus "cmd-100" 1000000100).map
            BackgroundCommandStatus.Running = .ok exRunningCmd.DoneClosed
        ∧ (exRunningCmd.DoneClosed = true →
            (exRunningPipeline.GetCommandStatus "cmd-100" 1000000100).map
                (fun s => (s.ExitCode, s.Output, s.Error))
              = .ok (exRunningCmd.ExitCode, exRunningCmd.Output,
                  exRunningCmd.Error))))
    ∧ ((mapLookup exFinishedPipeline.BackgroundCommands "cmd-100"
          = some exFinishedCmd)
      ∧ ((exFinishedPipeline.GetCommandStatus "cmd-100" 3000000100).map
            BackgroundCommandStatus.Running = .ok exFinishedCmd.DoneClosed
        ∧ (exFinishedCmd.DoneClosed = true →
            (exFinishedPipeline.GetCommandStatus "cmd-100" 3000000100).map
                (fun s => (s.ExitCode, s.Output, s.Error))
              = .ok (exFinishedCmd.ExitCode, exFinishedCmd.Output,
                  exFinishedCmd.Error)))) :=
  ⟨⟨rfl, c1_running_flag_inverted exRunningPipeline "cmd-100" exRunningCmd
      1000000100 rfl⟩,
    ⟨rfl, c1_running_flag_inverted exFinishedPipeline "cmd-100" exFinishedCmd
      3000000100 rfl⟩⟩

/-- A `Command.Execute` run in which `cmd.Wait()` fails with an error that
is not an `*exec.ExitError*` (e.g. an I/O copy failure). -/
def exWaitFailEnv : RunBehavior :=
  { stdoutPipe := .ok (), stderrPipe := .ok (), start := .ok ()
    wait := .otherErr
    stdoutText := "partial", stderrText := ""
    stdoutLines := [], stderrLines := [], elapsedNs := 1000 }

/-- Counterexample to C5 as stated: when `Wait` fails with a
non-`ExitError`, `Command.Execute` still returns a result (nil error), but
that result has `Success = false` with `ExitCode` left at `0`, so
`success == true ⟺ exitCode == 0` fails. -/
theorem c5_success_iff_counterexample :
    ∃ r, (NewShellCommand "true" "").Execute exWaitFailEnv = .ok r
      ∧ r.Success = false ∧ r.ExitCode = 0
      ∧ ¬(r.Success = true ↔ r.ExitCode = 0) := by
  refine ⟨_, rfl, rfl, rfl, ?_⟩
  intro hiff
  exact absurd (hiff.mpr rfl) (by decide)

/-- Claim C5 (amended): whenever the spawn succeeds, the run stays within
the timeout, and `Wait` reports a genuine process exit (`nil` or an
`ExitError` with nonzero code), `Command.Execute` returns a result with a
nil error and `success == true ⟺ exitCode == 0`; and every result the
`StreamingExecutor` assembles from a background command satisfies the iff
unconditionally (its `Success` is literally `exitCode == 0`, the waiter
mapping non-`ExitError` failures to exit code `1`).  The iff can only
break in `Command.Execute` when `Wait` fails with a non-`ExitError`. -/
theorem c5_amended_success_iff (c : Command) (env : RunBehavior)
    (bg : BackgroundCommand)
    (hso : env.stdoutPipe = .ok ()) (hse : env.stderrPipe = .ok ())
    (hstart : env.start = .ok ()) (htime : env.elapsedNs < c.TimeoutNs)
    (hwait : env.wait = .clean ∨ ∃ code, env.wait = .exitErr code ∧ code ≠ 0) :
    (∃ r, c.Execute env = .ok r ∧ (r.Success = true ↔ r.ExitCode = 0))
    ∧ ((resultOfBackground bg).Success = true
        ↔ (resultOfBackground bg).ExitCode = 0) := by
  constructor
  · have hpipe1 : (if c.Streaming then env.stdoutPipe else .ok ()) = .ok () := by
      rw [hso]; simp
    have hpipe2 : (if c.Streaming then env.stderrPipe else .ok ()) = .ok () := by
      rw [hse]; simp
    rw [Command.Execute, hpipe1, hpipe2, hstart]
    simp only
    rw [if_neg (not_le.mpr htime)]
    refine ⟨_, rfl, ?_⟩
    rcases hwait with hclean | ⟨code, hcode, hne⟩
    · simp [hclean]
    · simp [hcode, hne]
  · simp [resultOfBackground]

/-- Witness for the amended C5 at `exit 1` (nonzero exit, nil error). -/
theorem c5_amended_success_iff_witness :
    (({ stdoutPipe := .ok (), stderrPipe := .ok (), start := .ok ()
        wait := .exitErr 1, stdoutText := "", stderrText := ""
        stdoutLines := [], stderrLines := [], elapsedNs := 5000 } :
          RunBehavior).elapsedNs < (NewShellCommand "exit 1" "").TimeoutNs)
    ∧ ((∃ r, (NewShellCommand "exit 1" "").Execute
          { stdoutPipe := .ok (), stderrPipe := .ok (), start := .ok ()
            wait := .exitErr 1, stdoutText := "", stderrText := ""
            stdoutLines := [], stderrLines := [], elapsedNs := 5000 } = .ok r
        ∧ (r.Success = true ↔ r.ExitCode = 0))
      ∧ ((resultOfBackground exFinishedCmd).Success = true
          ↔ (resultOfBackground exFinishedCmd).ExitCode = 0)) :=
  ⟨by decide,
    c5_amended_success_iff (NewShellCommand "exit 1" "")
      { stdoutPipe := .ok (), stderrPipe := .ok (), start := .ok ()
        wait := .exitErr 1, stdoutText := "", stderrText := ""
        stdoutLines := [], stderrLines := [], elapsedNs := 5000 }
      exFinishedCmd rfl rfl rfl (by decide)
      (Or.inr ⟨1, rfl, by decide⟩)⟩

/-- Every lifecycle step starts from a command whose `Done` channel is
still open. -/
theorem BgStep.src_not_done {a b : BackgroundCommand} (h : BgStep a b) :
    a.DoneClosed = false := by
  cases h <;> assumption

/-- Single lifecycle steps never shrink the line buffers. -/
theorem BgStep.buffer_mono {a b : BackgroundCommand} (h : BgStep a b) :
    a.OutputLines.length ≤ b.OutputLines.length
      ∧ a.ErrorLines.length ≤ b.ErrorLines.length := by
  cases h <;>
    simp [BackgroundCommand.AppendOutput, BackgroundCommand.AppendError,
      finishBackground]

/-- Claim C6: along every lifecycle trace the output and error line
buffers are append-only (their lengths never decrease), and once the
completion signal has fired the command state — and hence every
`GetStatus` snapshot of it — is frozen. -/
theorem c6_append_only_frozen (c c' : BackgroundCommand)
    (h : Relation.ReflTransGen BgStep c c') :
    (c.OutputLines.length ≤ c'.OutputLines.length
      ∧ c.ErrorLines.length ≤ c'.ErrorLines.length)
    ∧ (c.DoneClosed = true → c' = c ∧ c'.GetStatus = c.GetStatus) := by
  constructor
  · induction h with
    | refl => exact ⟨le_refl _, le_refl _⟩
    | tail _ hstep ih =>
      exact ⟨ih.1.trans (BgStep.buffer_mono hstep).1,
        ih.2.trans (BgStep.buffer_mono hstep).2⟩
  · intro hdone
    have hc : c' = c := by
      rcases Relation.ReflTransGen.cases_head h with heq | ⟨b, hstep, _⟩
      · exact heq.symm
      · rw [BgStep.src_not_done hstep] at hdone
        exact absurd hdone (by decide)
    exact ⟨hc, by rw [hc]⟩

/-- Witness for C6: one append step on the concrete running command. -/
theorem c6_append_only_frozen_witness :
    (exRunningCmd.OutputLines.length
        ≤ (exRunningCmd.AppendOutput "b").OutputLines.length
      ∧ exRunningCmd.ErrorLines.length
        ≤ (exRunningCmd.AppendOutput "b").ErrorLines.length)
    ∧ (exRunningCmd.DoneClosed = true →
        exRunningCmd.AppendOutput "b" = exRunningCmd
          ∧ (exRunningCmd.AppendOutput "b").GetStatus = exRunningCmd.GetStatus) :=
  c6_append_only_frozen exRunningCmd (exRunningCmd.AppendOutput "b")
    (Relation.ReflTransGen.single (BgStep.appendOutput exRunningCmd "b" rfl))

/-- One complete `StreamingExecutor.ExecuteCommand` run of `echo done`:
the process spawns, emits one line, and exits cleanly. -/
def exC7Run : StreamingExecutor × Registry × ExecutionResult :=
  StreamingExecutor.ExecuteCommand ⟨[]⟩ [] "echo done" "" 7 8 .started
    ["done"] [] .clean 999

/-- Counterexample to C7 as stated: the command of `exC7Run` completed
successfully, yet the executor's `ActiveCommands` directory is empty again
— the entry stored under `"cmd-7"` during execution was deleted
automatically on completion, with no explicit `Remove`, and the status
lookup now fails. -/
theorem c7_auto_removal_counterexample :
    exC7Run.2.2.Success = true
    ∧ exC7Run.2.2.ExitCode = 0
    ∧ exC7Run.1.ActiveCommands = []
    ∧ exC7Run.1.GetCommandStatus "cmd-7" = .error "command not found: cmd-7" := by
  refine ⟨rfl, rfl, rfl, rfl⟩

/-- Claim C7 (amended): in the global command registry, completion never
removes an entry — after a full `StreamingExecutor` run the finished
command is still registered under its id, with its final exit code and
output, and stays there until an explicit `RemoveCommand`, after which the
lookup fails with NotFound.  (The `StreamingExecutor`'s private
`ActiveCommands` bookkeeping map, by contrast, drops its entry
automatically when the command completes.) -/
theorem c7_amended_registry_persistence :
    (∀ (e : StreamingExecutor) (reg : Registry) (command workingDir : String)
        (t1 t2 : Nat) (outLines errLines : List String) (w : WaitOutcome)
        (endNs : Nat),
      ∃ cmd, GetCommand
          (e.ExecuteCommand reg command workingDir t1 t2 .started
            outLines errLines w endNs).2.1
          ("cmd-" ++ toString t2) = .ok cmd
        ∧ cmd.DoneClosed = true
        ∧ cmd.ExitCode = bgWaitExitCode w
        ∧ cmd.OutputLines = outLines
        ∧ cmd.Output = joinLines outLines)
    ∧ (∀ (reg : Registry) (id : String),
      GetCommand (RemoveCommand reg id) id
        = .error ("command not found: " ++ id)) := by
  constructor
  · intro e reg command workingDir t1 t2 outLines errLines w endNs
    refine ⟨finishBackground
        { ID := "cmd-" ++ toString t2, Command := command
          WorkingDir := workingDir, StartTimeNs := t2, EndTimeNs := 0
          DurationNs := 0, ExitCode := 0, Output := "", Error := ""
          OutputLines := [], ErrorLines := [], DoneClosed := false }
        outLines errLines w endNs, ?_, rfl, rfl, ?_, ?_⟩
    · simp [StreamingExecutor.ExecuteCommand, ExecuteCommandWithStreaming,
        RegisterCommand, finishBackground, GetCommand, mapLookup_set_self]
    · simp [finishBackground]
    · simp [finishBackground]
  · intro reg id
    simp [GetCommand, RemoveCommand, mapLookup_delete_self]

/-- On a snapshot whose `Running` field is `true` the handler never takes
the close branch: the tick emits no complete message and does not close. -/
theorem streamTick_running_no_complete (st : StreamState)
    (s : BackgroundCommandStatus) (h : s.Running = true) :
    (∀ m ∈ (streamTick st s).2.1, m.Complete = false)
      ∧ (streamTick st s).2.2 = false := by
  rw [streamTick, h]
  split
  · simp [incrementalMsg]
  · simp

/-- Claim C2 (divergence): because `GetCommandStatus` copies the done flag
into `Running`, every snapshot of a command whose process has exited
carries `Running = true`, and the handler's close branch (guarded by
`!status.Running`) never fires on such a trace: over any sequence of polls
of a terminated command the subscription emits no complete message and
never closes the transport. -/
theorem c2_complete_never_sent_after_exit :
    (∀ (p : ExecutionPipeline) (id : String) (cmd : BackgroundCommand)
        (nowNs : Nat),
      mapLookup p.BackgroundCommands id = some cmd → cmd.DoneClosed = true →
      (p.GetCommandStatus id nowNs).map BackgroundCommandStatus.Running
        = .ok true)
    ∧ (∀ (st : StreamState) (ss : List BackgroundCommandStatus),
      (∀ s ∈ ss, s.Running = true) →
      (∀ m ∈ (streamRun st ss).2.1, m.Complete = false)
        ∧ (streamRun st ss).2.2 = false) := by
  constructor
  · intro p id cmd nowNs h hdone
    simp [ExecutionPipeline.GetCommandStatus, h, BackgroundCommand.GetStatus,
      hdone, Except.map]
  · intro st ss
    induction ss generalizing st with
    | nil =>
      intro _
      simp [streamRun]
    | cons s rest ih =>
      intro hss
      have hs : s.Running = true := hss s (List.mem_cons_self s rest)
      have hrest : ∀ x ∈ rest, x.Running = true :=
        fun x hx => hss x (List.mem_cons_of_mem s hx)
      have htick := streamTick_running_no_complete st s hs
      rcases he : streamTick st s with ⟨st1, msgs, closed⟩
      rw [he] at htick
      have hclosed : closed = false := htick.2
      subst hclosed
      rcases hr : streamRun st1 rest with ⟨st2, msgs2, closed2⟩
      have ihr := ih st1 hrest
      rw [hr] at ihr
      simp only [streamRun, he, hr]
      constructor
      · intro m hm
        rcases List.mem_append.mp hm with hm1 | hm2
        · exact htick.1 m hm1
        · exact ihr.1 m hm2
      · exact ihr.2

/-- Witness for C2: three polls of the finished command. -/
theorem c2_complete_never_sent_after_exit_witness :
    ((mapLookup exFinishedPipeline.BackgroundCommands "cmd-100"
        = some exFinishedCmd)
      ∧ exFinishedCmd.DoneClosed = true
      ∧ (exFinishedPipeline.GetCommandStatus "cmd-100" 3000000100).map
          BackgroundCommandStatus.Running = .ok true)
    ∧ ((∀ s ∈ [exStatusDone, exStatusDone, exStatusDone], s.Running = true)
      ∧ (∀ m ∈ (streamRun initStreamState
            [exStatusDone, exStatusDone, exStatusDone]).2.1, m.Complete = false)
      ∧ (streamRun initStreamState
            [exStatusDone, exStatusDone, exStatusDone]).2.2 = false) :=
  ⟨⟨rfl, rfl,
      c2_complete_never_sent_after_exit.1 exFinishedPipeline "cmd-100"
        exFinishedCmd 3000000100 rfl rfl⟩,
    ⟨by decide,
      c2_complete_never_sent_after_exit.2 initStreamState
        [exStatusDone, exStatusDone, exStatusDone] (by decide)⟩⟩

/-- The cursor never moves backwards in a tick. -/
theorem tickCursorOut_ge (st : StreamState) (s : BackgroundCommandStatus) :
    st.processedOutputLines ≤ tickCursorOut st s := by
  rw [tickCursorOut]
  split
  · exact le_of_lt (by assumption)
  · exact le_refl _

/-- All three tick outcomes leave the output cursor at `tickCursorOut`. -/
theorem streamTick_state_pOut (st : StreamState) (s : BackgroundCommandStatus) :
    (streamTick st s).1.processedOutputLines = tickCursorOut st s := by
  rw [streamTick]
  split
  · split <;> rfl
  · rfl

/-- If the tick sends nothing, there were no new output lines and the
cursor is unchanged. -/
theorem tickSendUpdate_false_noNew (st : StreamState)
    (s : BackgroundCommandStatus) (h : tickSendUpdate st s = false) :
    tickNewOutput st s = [] ∧ tickCursorOut st s = st.processedOutputLines := by
  have hlt : ¬ st.processedOutputLines < s.OutputList.length := by
    intro hlt
    rw [tickSendUpdate] at h
    rcases hl : st.lastStatus with _ | last <;> rw [hl] at h <;> simp [hlt] at h
  rw [tickNewOutput, tickCursorOut, if_neg hlt, if_neg hlt]
  exact ⟨rfl, rfl⟩

/-- The incremental output lines a tick delivers are exactly the slice of
the final output between the old and the new cursor (when the polled
snapshot is a prefix of the final output `L`). -/
theorem tickNewOutput_slice (st : StreamState) (s : BackgroundCommandStatus)
    (L : List String) (hpre : s.OutputList <+: L) :
    tickNewOutput st s
      = (L.take (tickCursorOut st s)).drop st.processedOutputLines := by
  have hsL : s.OutputList = L.take s.OutputList.length :=
    List.prefix_iff_eq_take.mp hpre
  rw [tickNewOutput, tickCursorOut]
  split
  · rw [← hsL]
  · exact (List.drop_eq_nil_of_le (List.length_take_le _ _)).symm

/-- Concatenating the incremental messages' output lists of one tick gives
`tickNewOutput` (the complete message is not incremental). -/
theorem streamTick_inc_flatten (st : StreamState) (s : BackgroundCommandStatus) :
    (((streamTick st s).2.1.filter (fun m => m.Incremental)).map
        CommandStatusResponse.OutputList).flatten = tickNewOutput st s := by
  rw [streamTick]
  split
  · split
    · simp [incrementalMsg, completeMsg]
    · simp [incrementalMsg]
  · rename_i h
    have hnone := tickSendUpdate_false_noNew st s (by simpa using h)
    simp [hnone.1]

/-- Splicing adjacent slices of `L` back together. -/
theorem drop_append_drop (M : List String) {a b : Nat} (hab : a ≤ b) :
    (M.take b).drop a ++ M.drop b = M.drop a := by
  have h2 : (M.drop a).drop (b - a) = M.drop b := by
    rw [List.drop_drop, Nat.add_sub_cancel' hab]
  rw [List.drop_take, ← h2, List.take_append_drop]

/-- Telescoping: the slice `[a, b)` of `L` followed by the slice `[b, c)`
is the slice `[a, c)`. -/
theorem take_drop_telescope (L : List String) {a b c : Nat} (hab : a ≤ b)
    (hbc : b ≤ c) :
    (L.take b).drop a ++ (L.take c).drop b = (L.take c).drop a := by
  have h1 : (L.take c).take b = L.take b := by
    rw [List.take_take, Nat.min_eq_left hbc]
  rw [← h1, drop_append_drop (L.take c) hab]

/-- Over a whole subscription the incremental messages deliver exactly the
slice of the final output between the initial and the final cursor:
no line is duplicated and none is skipped. -/
theorem streamRun_inc_flatten (L : List String) :
    ∀ (ss : List BackgroundCommandStatus) (st : StreamState),
      (∀ s ∈ ss, s.OutputList <+: L) →
      st.processedOutputLines ≤ (streamRun st ss).1.processedOutputLines
      ∧ (((streamRun st ss).2.1.filter (fun m => m.Incremental)).map
            CommandStatusResponse.OutputList).flatten
        = (L.take (streamRun st ss).1.processedOutputLines).drop
            st.processedOutputLines := by
  intro ss
  induction ss with
  | nil =>
    intro st _
    refine ⟨le_refl _, ?_⟩
    simp only [streamRun, List.filter_nil, List.map_nil, List.flatten_nil]
    exact (List.drop_eq_nil_of_le (List.length_take_le _ _)).symm
  | cons s rest ih =>
    intro st hpre
    have hpres : s.OutputList <+: L := hpre s (List.mem_cons_self _ _)
    have hprer : ∀ x ∈ rest, x.OutputList <+: L :=
      fun x hx => hpre x (List.mem_cons_of_mem _ hx)
    rcases he : streamTick st s with ⟨st1, msgs, closed⟩
    have hpOut : st1.processedOutputLines = tickCursorOut st s := by
      have h := streamTick_state_pOut st s
      rw [he] at h
      exact h
    have hmsgs : ((msgs.filter (fun m => m.Incremental)).map
        CommandStatusResponse.OutputList).flatten = tickNewOutput st s := by
      have h := streamTick_inc_flatten st s
      rw [he] at h
      exact h
    have hge : st.processedOutputLines ≤ st1.processedOutputLines := by
      rw [hpOut]
      exact tickCursorOut_ge st s
    have hpiece : tickNewOutput st s
        = (L.take st1.processedOutputLines).drop st.processedOutputLines := by
      rw [hpOut]
      exact tickNewOutput_slice st s L hpres
    cases closed with
    | true =>
      simp only [streamRun, he]
      exact ⟨hge, by rw [hmsgs, hpiece]⟩
    | false =>
      rcases hr : streamRun st1 rest with ⟨st2, msgs2, closed2⟩
      have ihr := ih st1 hprer
      rw [hr] at ihr
      simp only [streamRun, he, hr]
      refine ⟨hge.trans ihr.1, ?_⟩
      rw [List.filter_append, List.map_append, List.flatten_append, hmsgs,
        ihr.2, hpiece]
      exact take_drop_telescope L hge ihr.1

/-- Counterexample to C3 as stated, on the concrete subscription that polls
the running command at t = 1 s and t = 2 s: the handler delivers the
incremental `["a"]`, an empty incremental, and then the terminal complete
message carrying `["a"]` *again* and closes; the command afterwards
finishes with final output `["a", "b"]`.  The concatenation of everything
delivered is `["a", "a"]`: the line `"a"` arrives twice and the line `"b"`
never arrives. -/
theorem c3_exactly_once_counterexample :
    ((streamRun initStreamState [exStatusT1, exStatusT2]).2.1.map
        CommandStatusResponse.OutputList).flatten = ["a", "a"]
    ∧ (streamRun initStreamState [exStatusT1, exStatusT2]).2.2 = true
    ∧ exFinishedCmd.OutputLines = ["a", "b"]
    ∧ (["a", "a"] : List String) ≠ ["a", "b"]
    ∧ (["a", "a"] : List String).count "a" = 2 := by
  refine ⟨rfl, rfl, rfl, by decide, rfl⟩

/-- Claim C3 (amended): within one subscription the *incremental* messages
deliver, in order, exactly the slice of the final output covered by the
observer's private cursor — no duplication and no gaps up to the final
cursor position.  (The terminal complete message additionally repeats the
entire output list, and the subscription may close with the cursor short
of the end, so the concatenation over *all* delivered messages need not
equal the final output exactly once.)  Cursors live in the per-observer
`StreamState`, so simultaneous observers are independent by construction. -/
theorem c3_amended_incremental_exactly_once (L : List String)
    (ss : List BackgroundCommandStatus)
    (hpre : ∀ s ∈ ss, s.OutputList <+: L) :
    (((streamRun initStreamState ss).2.1.filter (fun m => m.Incremental)).map
        CommandStatusResponse.OutputList).flatten
      = L.take (streamRun initStreamState ss).1.processedOutputLines := by
  have h := (streamRun_inc_flatten L ss initStreamState hpre).2
  simpa using h

/-- Witness for the amended C3 on the two-tick subscription: the
incremental messages deliver exactly `["a"]`, the first (and only) line
the cursor consumed of the eventual output `["a", "b"]`. -/
theorem c3_amended_incremental_exactly_once_witness :
    (∀ s ∈ [exStatusT1, exStatusT2], s.OutputList <+: ["a", "b"])
    ∧ (((streamRun initStreamState [exStatusT1, exStatusT2]).2.1.filter
          (fun m => m.Incremental)).map CommandStatusResponse.OutputList).flatten
      = List.take
          (streamRun initStreamState [exStatusT1, exStatusT2]).1.processedOutputLines
          ["a", "b"] :=
  ⟨by decide,
    c3_amended_incremental_exactly_once ["a", "b"] [exStatusT1, exStatusT2]
      (by decide)⟩

end CommandForge
